import Mathlib

/-!
# Verification of the oalpaca serving engine

Shallow embedding of the serving-engine core of the `oalpaca` repository
(an Ollama-compatible multi-model LLM gateway written in JavaScript) and
proofs about the behaviour its specification describes.

The embedding covers:
* a model of JavaScript/JSON values and of `JSON.parse` / `JSON.stringify`
  (`Json`, `json_parse`, `json_stringify`),
* the qwen3 ("tag-delimited JSON") and llama3 ("square-bracket") tool-call
  codecs (`src/model_handlers/qwen3.js`, `src/model_handlers/llama3.js`),
* the MCP tool-provider manager's `call_tool` (`src/mcp_client.js`),
* the bearer-token extraction, the strict-mode gate and the relevant routes
  of `handle_request` (`src/server_core.js`),
* the native and OpenAI-style tool-execution loops of `execute_chat` and
  `execute_chat_openai` (`src/server_core.js`), with the external inference
  session and the tool providers given as oracles,
* the fair-batching request scheduler (`src/request_scheduler.js`),
* the model lifecycle manager's LRU + cap/memory eviction
  (`model_manager.js`, shipped as the second document concatenated into
  `src/src/config.js`).
-/

/-- JavaScript values as produced by `JSON.parse` (plus `undefined` is
represented externally by `Option`).  Numbers keep their source literal
(integer digits and optional fraction digits) instead of a float: every
claim below only ever compares values produced from identical literals, so
the literal representation is observationally faithful there. -/
inductive Json where
  | null : Json
  | bool : Bool → Json
  | num : String → Json
  | str : String → Json
  | arr : List Json → Json
  | obj : List (String × Json) → Json
deriving Repr

/-- Characters that JavaScript's `\s` (and `String.prototype.trim`) treat as
whitespace, restricted to ASCII. -/
def js_is_space (c : Char) : Bool :=
  c = ' ' || c = '\t' || c = '\n' || c = '\r' || c = '\x0b' || c = '\x0c'

/-- `String.prototype.trim` on a character list. -/
def js_trim_chars (l : List Char) : List Char :=
  ((l.dropWhile js_is_space).reverse.dropWhile js_is_space).reverse

/-- `String.prototype.trim`. -/
def js_trim (s : String) : String :=
  ⟨js_trim_chars s.data⟩

/-- A numeric literal denotes zero iff all its digits are `0`
(used only for JS truthiness of numbers). -/
def num_lit_is_zero (lit : String) : Bool :=
  lit.data.all (fun c => c = '0' || c = '.' || c = '-' || c = '+')

/-- JavaScript truthiness of a value: `null`, `false`, `0` and `""` are
falsy, everything else (including `[]` and `{}`) is truthy. -/
def js_truthy : Json → Bool
  | .null => false
  | .bool b => b
  | .num lit => !num_lit_is_zero lit
  | .str s => s ≠ ""
  | .arr _ => true
  | .obj _ => true

/-- Property access `v.k` on a JSON value: defined only on objects, where
the *last* binding wins (as in `JSON.parse` with duplicate keys); `none`
models `undefined`.  Accessing a property of `null` throws in JavaScript;
every use below guards that case explicitly. -/
def js_get (v : Json) (k : String) : Option Json :=
  match v with
  | .obj fields => (fields.reverse.find? (fun f => f.1 = k)).map (·.2)
  | _ => none

mutual

/-- `String(v)` for a JSON value (as used by template literals and
`Array.prototype.join`'s element conversion). -/
def js_to_string : Json → String
  | .null => "null"
  | .bool b => if b then "true" else "false"
  | .num lit => lit
  | .str s => s
  | .arr l => String.intercalate "," (js_join_elems l)
  | .obj _ => "[object Object]"

/-- Element conversion of `Array.prototype.join`: like `String(v)` except
that `null` (and `undefined`) become the empty string. -/
def js_join_elems : List Json → List String
  | [] => []
  | .null :: rest => "" :: js_join_elems rest
  | v :: rest => js_to_string v :: js_join_elems rest

end

/-- Hex digit for `\u00XX` escapes. -/
def hex_digit (n : Nat) : Char :=
  if n < 10 then Char.ofNat ('0'.toNat + n) else Char.ofNat ('a'.toNat + n - 10)

/-- The escaping `JSON.stringify` applies inside string literals. -/
def json_escape_char (c : Char) : List Char :=
  if c = '"' then ['\\', '"']
  else if c = '\\' then ['\\', '\\']
  else if c = '\n' then ['\\', 'n']
  else if c = '\t' then ['\\', 't']
  else if c = '\r' then ['\\', 'r']
  else if c = '\x08' then ['\\', 'b']
  else if c = '\x0c' then ['\\', 'f']
  else if c.toNat < 32 then
    ['\\', 'u', '0', '0', hex_digit (c.toNat / 16), hex_digit (c.toNat % 16)]
  else [c]

/-- `JSON.stringify` of a string value. -/
def json_quote (s : String) : String :=
  ⟨'"' :: (s.data.flatMap json_escape_char) ++ ['"']⟩

mutual

/-- `JSON.stringify` (compact form, no indent argument). -/
def json_stringify : Json → String
  | .null => "null"
  | .bool b => if b then "true" else "false"
  | .num lit => lit
  | .str s => json_quote s
  | .arr l => "[" ++ String.intercalate "," (json_stringify_list l) ++ "]"
  | .obj fields =>
      "\x7b" ++ String.intercalate "," (json_stringify_fields fields) ++ "\x7d"

/-- `JSON.stringify` of each array element. -/
def json_stringify_list : List Json → List String
  | [] => []
  | v :: rest => json_stringify v :: json_stringify_list rest

/-- `JSON.stringify` of each object member. -/
def json_stringify_fields : List (String × Json) → List String
  | [] => []
  | (k, v) :: rest => (json_quote k ++ ":" ++ json_stringify v) :: json_stringify_fields rest

end

/-! ## A model of `JSON.parse`

A fuel-indexed recursive-descent parser over the character list of the
input.  It accepts the JSON grammar (objects, arrays, strings with the
standard escapes, numbers, `true`/`false`/`null`) and requires the whole
input to be consumed, as `JSON.parse` does.  `\uXXXX` escapes decode the
code unit directly (surrogate pairs are not recombined; no claim below
involves non-BMP text). -/

/-- Decode one string-literal character (after the opening quote); returns
the decoded char(s) and the rest, or `none` on a malformed escape. -/
def parse_hex_digit (c : Char) : Option Nat :=
  if '0' ≤ c ∧ c ≤ '9' then some (c.toNat - '0'.toNat)
  else if 'a' ≤ c ∧ c ≤ 'f' then some (c.toNat - 'a'.toNat + 10)
  else if 'A' ≤ c ∧ c ≤ 'F' then some (c.toNat - 'A'.toNat + 10)
  else none

/-- Decode a one-character JSON string escape (`\n`, `\"`, …). -/
def json_unescape_char (e : Char) : Option Char :=
  if e = '"' then some '"'
  else if e = '\\' then some '\\'
  else if e = '/' then some '/'
  else if e = 'n' then some '\n'
  else if e = 't' then some '\t'
  else if e = 'r' then some '\r'
  else if e = 'b' then some '\x08'
  else if e = 'f' then some '\x0c'
  else none

/-- Parse the body of a JSON string literal up to the closing quote. -/
def parse_json_string : List Char → Option (List Char × List Char)
  | [] => none
  | '"' :: rest => some ([], rest)
  | '\\' :: 'u' :: h1 :: h2 :: h3 :: h4 :: rest =>
      (match parse_hex_digit h1, parse_hex_digit h2,
             parse_hex_digit h3, parse_hex_digit h4 with
       | some a, some b, some c, some d =>
         match parse_json_string rest with
         | some (s, rest') =>
             some (Char.ofNat (((a * 16 + b) * 16 + c) * 16 + d) :: s, rest')
         | none => none
       | _, _, _, _ => none)
  | '\\' :: e :: rest =>
      (match json_unescape_char e with
       | some c =>
         match parse_json_string rest with
         | some (s, rest') => some (c :: s, rest')
         | none => none
       | none => none)
  | c :: rest =>
      match parse_json_string rest with
      | some (s, rest') => some (c :: s, rest')
      | none => none

/-- Parse the digits/shape of a JSON number literal, keeping the literal. -/
def parse_json_number (l : List Char) : Option (List Char × List Char) :=
  let (sign, l1) := match l with
    | '-' :: rest => (['-'], rest)
    | _ => (([] : List Char), l)
  let (intPart, l2) := l1.span (fun c => '0' ≤ c ∧ c ≤ '9')
  if intPart.isEmpty then none
  else
    let (fracPart, l3) :=
      match l2 with
      | '.' :: rest =>
        let (ds, r) := rest.span (fun c => '0' ≤ c ∧ c ≤ '9')
        if ds.isEmpty then (([] : List Char), l2) else ('.' :: ds, r)
      | _ => (([] : List Char), l2)
    let (expPart, l4) :=
      match l3 with
      | e :: rest =>
        if e = 'e' ∨ e = 'E' then
          let (sgn, r1) := match rest with
            | s :: r => if s = '+' ∨ s = '-' then ([s], r) else (([] : List Char), rest)
            | [] => (([] : List Char), rest)
          let (ds, r2) := r1.span (fun c => '0' ≤ c ∧ c ≤ '9')
          if ds.isEmpty then (([] : List Char), l3) else (e :: (sgn ++ ds), r2)
        else (([] : List Char), l3)
      | [] => (([] : List Char), l3)
    some (sign ++ intPart ++ fracPart ++ expPart, l4)

mutual

/-- Parse one JSON value (leading whitespace skipped by the caller). -/
def parse_json_value (fuel : Nat) (l : List Char) : Option (Json × List Char) :=
  match fuel with
  | 0 => none
  | fuel + 1 =>
    match l with
    | 'n' :: 'u' :: 'l' :: 'l' :: rest => some (.null, rest)
    | 't' :: 'r' :: 'u' :: 'e' :: rest => some (.bool true, rest)
    | 'f' :: 'a' :: 'l' :: 's' :: 'e' :: rest => some (.bool false, rest)
    | '"' :: rest =>
      match parse_json_string rest with
      | some (s, rest') => some (.str ⟨s⟩, rest')
      | none => none
    | '[' :: rest =>
      let rest' := rest.dropWhile js_is_space
      (match rest' with
       | ']' :: r => some (.arr [], r)
       | _ =>
         match parse_json_elems fuel rest' with
         | some (elems, r) => some (.arr elems, r)
         | none => none)
    | '\x7b' :: rest =>
      let rest' := rest.dropWhile js_is_space
      (match rest' with
       | '\x7d' :: r => some (.obj [], r)
       | _ =>
         match parse_json_fields fuel rest' with
         | some (fields, r) => some (.obj fields, r)
         | none => none)
    | _ =>
      match parse_json_number l with
      | some (lit, rest) => some (.num ⟨lit⟩, rest)
      | none => none

/-- Parse a non-empty comma-separated list of array elements plus `]`. -/
def parse_json_elems (fuel : Nat) (l : List Char) : Option (List Json × List Char) :=
  match fuel with
  | 0 => none
  | fuel + 1 =>
    match parse_json_value fuel l with
    | none => none
    | some (v, rest) =>
      let rest' := rest.dropWhile js_is_space
      match rest' with
      | ',' :: r =>
        (match parse_json_elems fuel (r.dropWhile js_is_space) with
         | some (vs, r') => some (v :: vs, r')
         | none => none)
      | ']' :: r => some ([v], r)
      | _ => none

/-- Parse a non-empty comma-separated list of object members plus `}`. -/
def parse_json_fields (fuel : Nat) (l : List Char) :
    Option (List (String × Json) × List Char) :=
  match fuel with
  | 0 => none
  | fuel + 1 =>
    match l with
    | '"' :: rest =>
      (match parse_json_string rest with
       | none => none
       | some (k, rest') =>
         let rest'' := rest'.dropWhile js_is_space
         match rest'' with
         | ':' :: r =>
           (match parse_json_value fuel (r.dropWhile js_is_space) with
            | none => none
            | some (v, r') =>
              let r'' := r'.dropWhile js_is_space
              match r'' with
              | ',' :: r3 =>
                (match parse_json_fields fuel (r3.dropWhile js_is_space) with
                 | some (fs, r4) => some ((⟨k⟩, v) :: fs, r4)
                 | none => none)
              | '\x7d' :: r3 => some ([(⟨k⟩, v)], r3)
              | _ => none)
         | _ => none)
    | _ => none

end

/-- `JSON.parse`: parse a complete JSON document; `none` models the thrown
`SyntaxError`. -/
def json_parse (s : String) : Option Json :=
  let l := s.data.dropWhile js_is_space
  match parse_json_value (l.length + 1) l with
  | some (v, rest) => if (rest.dropWhile js_is_space).isEmpty then some v else none
  | none => none

/-- Substring search: splits `l` around the first occurrence of `pat`,
returning the text before it and the text after it. -/
def split_on_sub (pat : List Char) : List Char → Option (List Char × List Char)
  | [] => none
  | c :: rest =>
    if pat.isPrefixOf (c :: rest) then some ([], (c :: rest).drop pat.length)
    else
      match split_on_sub pat rest with
      | some (pre, post) => some (c :: pre, post)
      | none => none

/-- `pat` occurs as a substring of `l`. -/
def contains_sub (l pat : List Char) : Bool :=
  (split_on_sub pat l).isSome

/-- String-level substring test (`/pat/.test(s)` for a literal pattern). -/
def str_contains_sub (s pat : String) : Bool :=
  contains_sub s.data pat.data

/-- `s.startsWith(pre)`. -/
def str_starts_with (s pre : String) : Bool :=
  pre.data.isPrefixOf s.data

/-! ## Tool-call codecs

`src/model_handlers/qwen3.js` (dialect A, tag-delimited JSON) and
`src/model_handlers/llama3.js` (dialect B, square-bracket function call). -/

/-- A parsed tool call `{name, arguments}`.  The JavaScript code stores
whatever value the parsed JSON carried in `name`, so the field is a `Json`
value (the llama3 codec always produces a string there). -/
structure ToolCall where
  name : Json
  arguments : Json
deriving Repr

namespace Qwen3

/-- The successive matches of `/<tool_call>\s*([\s\S]*?)\s*<\/tool_call>/g`:
repeatedly find the next `<tool_call>`, then the next `</tool_call>` after
it; the captured group is the text in between with surrounding whitespace
stripped (the lazy inner group together with the flanking `\s*`).  An
opening tag without a matching closing tag ends the scan. -/
def extract_blocks : Nat → List Char → List String
  | 0, _ => []
  | fuel + 1, l =>
    match split_on_sub "<tool_call>".data l with
    | none => []
    | some (_, after_open) =>
      match split_on_sub "</tool_call>".data after_open with
      | none => []
      | some (content, after_close) =>
          (⟨js_trim_chars content⟩ : String) :: extract_blocks fuel after_close

/-- Body of the per-match loop in `parse_tool_calls` (qwen3.js lines 54-66):
`JSON.parse` the trimmed capture; push `{name: parsed.name, arguments:
parsed.arguments || {}}` iff `parsed.name` is truthy.  A JSON syntax error,
a property access on `null`, and a falsy `name` all skip the block (the
`try`/`catch` around the body). -/
def parse_block (content : String) : Option ToolCall :=
  match json_parse (js_trim content) with
  | none => none
  | some parsed =>
    match js_get parsed "name" with
    | some nv =>
      if js_truthy nv then
        some ⟨nv,
          match js_get parsed "arguments" with
          | some a => if js_truthy a then a else Json.obj []
          | none => Json.obj []⟩
      else none
    | none => none

/-- `parse_tool_calls` of qwen3.js: each tagged block contributes at most
one call, in text order. -/
def parse_tool_calls (output : String) : List ToolCall :=
  (extract_blocks (output.data.length + 1) output.data).filterMap parse_block

/-- `has_tool_calls` of qwen3.js: `/<tool_call>/.test(output)`. -/
def has_tool_calls (output : String) : Bool :=
  str_contains_sub output "<tool_call>"

/-- `format_tool_result` of qwen3.js: strings pass through, anything else
is `JSON.stringify`-ed; the result string is then embedded (quoted) in a
`<tool_response>` envelope, the name interpolated bare inside quotes. -/
def format_tool_result (tool_name : Json) (result : Json) : String :=
  let result_str := match result with
    | .str s => s
    | r => json_stringify r
  "<tool_response>\n\x7b\"name\": \"" ++ js_to_string tool_name ++ "\", \"result\": "
    ++ json_quote result_str ++ "\x7d\n</tool_response>"

end Qwen3

namespace Llama3

/-- `\w` of JavaScript regexes: `[A-Za-z0-9_]`. -/
def is_word_char (c : Char) : Bool :=
  ('a' ≤ c && c ≤ 'z') || ('A' ≤ c && c ≤ 'Z') || ('0' ≤ c && c ≤ '9') || c = '_'

/-- `\d`. -/
def is_digit (c : Char) : Bool := '0' ≤ c && c ≤ '9'

/-- The first match of `/\[([^\]]+)\]/` (llama3.js line 54): scanning left
to right, the first `[` that is followed by at least one non-`]` character
and then a `]`; the capture is that non-`]` run. -/
def first_bracket_group : List Char → Option (List Char)
  | [] => none
  | c :: rest =>
    if c = '[' then
      let (content, after) := rest.span (fun d => d ≠ ']')
      match after with
      | [] => none
      | _ :: _ => if content.isEmpty then first_bracket_group rest else some content
    else first_bracket_group rest

/-- One attempted match of `/(\w+)\s*\(([^)]*)\)/` anchored at the head of
`l`: a maximal `\w+` run, optional whitespace, `(`, the non-`)` run, `)`.
Returns the two captures and the rest of the input after the match. -/
def try_func_match (l : List Char) : Option (String × String × List Char) :=
  let (w, r1) := l.span is_word_char
  if w.isEmpty then none
  else
    let r2 := r1.dropWhile js_is_space
    match r2 with
    | '(' :: r3 =>
      let (args, r4) := r3.span (fun d => d ≠ ')')
      (match r4 with
       | ')' :: r5 => some (⟨w⟩, ⟨args⟩, r5)
       | _ => none)
    | _ => none

/-- All matches of `/(\w+)\s*\(([^)]*)\)/g` in order: try to match at each
position, resuming after a match (regex `lastIndex` semantics). -/
def func_matches : Nat → List Char → List (String × String)
  | 0, _ => []
  | _, [] => []
  | fuel + 1, l@(_ :: tail) =>
    match try_func_match l with
    | some (name, args, rest) => (name, args) :: func_matches fuel rest
    | none => func_matches fuel tail

/-- One attempted match of the argument regex
`/(\w+)\s*=\s*(?:'([^']*)'|"([^"]*)"|(\d+(?:\.\d+)?)|(\w+))/` at the head
of `l`: name, `=`, then a single- or double-quoted string, a decimal
numeral (the literal is kept, see `Json.num`), or a bare identifier
(`True`/`False`/`None` become boolean/null, others stay strings). -/
def try_arg_match (l : List Char) : Option (String × Json × List Char) :=
  let (w, r1) := l.span is_word_char
  if w.isEmpty then none
  else
    let r2 := r1.dropWhile js_is_space
    match r2 with
    | '=' :: r3 =>
      let r4 := r3.dropWhile js_is_space
      (match r4 with
       | '\'' :: v =>
         let (s, rest) := v.span (fun d => d ≠ '\'')
         (match rest with
          | '\'' :: r5 => some (⟨w⟩, .str ⟨s⟩, r5)
          | _ => none)
       | '"' :: v =>
         let (s, rest) := v.span (fun d => d ≠ '"')
         (match rest with
          | '"' :: r5 => some (⟨w⟩, .str ⟨s⟩, r5)
          | _ => none)
       | d :: _ =>
         if is_digit d then
           let (ds, r5) := r4.span is_digit
           match r5 with
           | '.' :: r6 =>
             let (fs, r7) := r6.span is_digit
             if fs.isEmpty then some (⟨w⟩, .num ⟨ds⟩, r5)
             else some (⟨w⟩, .num ⟨ds ++ '.' :: fs⟩, r7)
           | _ => some (⟨w⟩, .num ⟨ds⟩, r5)
         else
           let (v, r5) := r4.span is_word_char
           if v.isEmpty then none
           else
             let vs : String := ⟨v⟩
             let jv :=
               if vs = "True" then Json.bool true
               else if vs = "False" then Json.bool false
               else if vs = "None" then Json.null
               else Json.str vs
             some (⟨w⟩, jv, r5)
       | [] => none)
    | _ => none

/-- JavaScript object assignment `args[name] = v`: overwrite in place,
first insertion position kept. -/
def js_obj_set (fields : List (String × Json)) (k : String) (v : Json) :
    List (String × Json) :=
  if fields.any (fun f => f.1 = k) then
    fields.map (fun f => if f.1 = k then (k, v) else f)
  else fields ++ [(k, v)]

/-- Scan of the argument regex over the whole argument string. -/
def parse_args_scan : Nat → List Char → List (String × Json) → List (String × Json)
  | 0, _, acc => acc
  | _, [], acc => acc
  | fuel + 1, l@(_ :: tail), acc =>
    match try_arg_match l with
    | some (n, v, rest) => parse_args_scan fuel rest (js_obj_set acc n v)
    | none => parse_args_scan fuel tail acc

/-- `parse_pythonic_args` of llama3.js. -/
def parse_pythonic_args (args_str : String) : Json :=
  if js_trim args_str = "" then Json.obj []
  else Json.obj (parse_args_scan (args_str.data.length + 1) args_str.data [])

/-- `parse_tool_calls` of llama3.js: only the first bracket group is
examined; every `name(args)` shape inside it becomes a call. -/
def parse_tool_calls (output : String) : List ToolCall :=
  match first_bracket_group output.data with
  | none => []
  | some calls_str =>
    (func_matches (calls_str.length + 1) calls_str).map
      (fun m => ⟨Json.str m.1, parse_pythonic_args m.2⟩)

/-- One attempted match of `/\[\s*\w+\s*\([^\]]*\)\s*\]/` at the head of
`l`: `[`, optional space, a word, optional space, `(`, then a non-`]` run
that (after trailing whitespace) ends in `)`, then `]`. -/
def try_htc_match (l : List Char) : Bool :=
  match l with
  | '[' :: r1 =>
    let r2 := r1.dropWhile js_is_space
    let (w, r3) := r2.span is_word_char
    if w.isEmpty then false
    else
      let r4 := r3.dropWhile js_is_space
      (match r4 with
       | '(' :: r5 =>
         let (run, rest) := r5.span (fun d => d ≠ ']')
         (match rest with
          | ']' :: _ =>
            (match run.reverse.dropWhile js_is_space with
             | ')' :: _ => true
             | _ => false)
          | _ => false)
       | _ => false)
  | _ => false

/-- Existence scan for `has_tool_calls`. -/
def htc_scan : Nat → List Char → Bool
  | 0, _ => false
  | _, [] => false
  | fuel + 1, l@(_ :: tail) => try_htc_match l || htc_scan fuel tail

/-- `has_tool_calls` of llama3.js: `/\[\s*\w+\s*\([^\]]*\)\s*\]/.test(output)`. -/
def has_tool_calls (output : String) : Bool :=
  htc_scan (output.data.length + 1) output.data

end Llama3

/-! ## MCP tool-provider manager (`src/mcp_client.js`) -/

/-- `Map.prototype.get` on an association list (a key is bound at most
once in every state built below, as in the JavaScript `Map`). -/
def map_get {α : Type} (m : List (String × α)) (k : String) : Option α :=
  (m.find? (fun e => e.1 = k)).map (·.2)

namespace Mcp

/-- A registered tool descriptor; `call_tool` reads only its `name` (the
actual, unqualified name sent to the provider). -/
structure McpTool where
  name : String

/-- The manager state plus the provider clients as oracles: a client maps
an (actual tool name, arguments) invocation to a result or a thrown
error's message. -/
structure McpManager where
  clients : List (String × (String → Json → Except String Json))
  tools : List (String × McpTool)
  tool_to_server : List (String × String)

/-- `c.type === 'text'` on a content item. -/
def is_text_item (c : Json) : Bool :=
  match js_get c "type" with
  | some (.str t) => t = "text"
  | _ => false

/-- `content.filter(c => c.type === 'text').map(c => c.text).join('\n')`;
`Array.prototype.join` renders a missing or null `text` as `""`. -/
def join_text_content (content : List Json) : String :=
  String.intercalate "\n" ((content.filter is_text_item).map (fun c =>
    match js_get c "text" with
    | none => ""
    | some .null => ""
    | some v => js_to_string v))

/-- `call_tool` of mcp_client.js (lines 139-175).  The unreachable map
inconsistency (name routed but descriptor missing) would throw a
`TypeError` in JavaScript; it is surfaced as an error value here. -/
def call_tool (m : McpManager) (tool_name : String) (args : Json) :
    Except String Json :=
  match map_get m.tool_to_server tool_name with
  | none => .error ("Unknown tool: " ++ tool_name)
  | some server_name =>
    match map_get m.clients server_name with
    | none => .error ("Server not connected: " ++ server_name)
    | some client =>
      match map_get m.tools tool_name with
      | none => .error "TypeError: Cannot read properties of undefined (reading 'name')"
      | some tool =>
        match client tool.name args with
        | .error msg => .error ("Tool call failed: " ++ msg)
        | .ok result =>
          match js_get result "content" with
          | some (.arr content) =>
            let text_content := join_text_content content
            if text_content ≠ "" then .ok (.str text_content) else .ok result
          | _ => .ok result

end Mcp

/-! ## Server core: authentication and the strict-mode gate
(`src/server_core.js`, `src/token_manager.js`) -/

namespace Server

/-- `String.prototype.split(sep)` for a one-character separator: split on
every occurrence, keeping empty parts (`"a  b".split(' ') =
["a","","b"]`, `"".split(' ') = [""]`). -/
def js_split_char (sep : Char) : List Char → List (List Char)
  | [] => [[]]
  | c :: rest =>
    if c = sep then [] :: js_split_char sep rest
    else
      match js_split_char sep rest with
      | [] => [[c]]
      | p :: ps => (c :: p) :: ps

/-- `split(' ')` at the string level. -/
def js_split_space (a : String) : List String :=
  (js_split_char ' ' a.data).map (fun l => (⟨l⟩ : String))

/-- `String.prototype.toLowerCase()` on the ASCII range. -/
def js_char_lower (c : Char) : Char :=
  if 'A' ≤ c && c ≤ 'Z' then Char.ofNat (c.toNat + 32) else c

/-- `toLowerCase()` at the string level. -/
def js_to_lower (s : String) : String :=
  ⟨s.data.map js_char_lower⟩

/-- `extract_token` (server_core.js lines 157-165): `null` when the header
is absent or empty; otherwise split on single spaces and accept exactly
`[scheme, token]` with a case-insensitive `bearer` scheme. -/
def extract_token (auth : Option String) : Option String :=
  match auth with
  | none => none
  | some a =>
    if a = "" then none
    else
      match js_split_space a with
      | [scheme, tok] => if js_to_lower scheme = "bearer" then some tok else none
      | _ => none

/-- One record of the token store. -/
structure TokenEntry where
  note : String
  models : List String

/-- `get_models_for_token` of token_manager.js: the token's models, or
`null` for an unknown token. -/
def get_models_for_token (store : List (String × TokenEntry)) (token : String) :
    Option (List String) :=
  (store.find? (fun e => e.1 = token)).map (·.2.models)

/-- An HTTP response: status plus the body `send_json`/`res.end` wrote. -/
inductive Body where
  | empty : Body
  | text : String → Body
  | json : Json → Body

/-- The written response. -/
structure Response where
  status : Nat
  body : Body

/-- The request fields the gate and the gated routes read; `path` is the
pathname after the trailing-slash normalization. -/
structure HttpRequest where
  method : String
  path : String
  authorization : Option String

/-- Server-level configuration involved in the gate. -/
structure ServerCfg where
  require_token : Bool
  token_store : List (String × TokenEntry)
  configured_models : List String

/-- `handle_request` up to routing (server_core.js lines 752-817): the CORS
preflight short-circuit, then the strict-mode global bearer-token gate;
the per-route dispatch inside the `try` block is the `route` argument. -/
def handle_request (cfg : ServerCfg) (req : HttpRequest)
    (route : HttpRequest → Response) : Response :=
  if req.method = "OPTIONS" then { status := 204, body := .empty }
  else if cfg.require_token then
    match extract_token req.authorization with
    | none =>
      { status := 403,
        body := .json (.obj [("error", .str "Forbidden: valid bearer token required")]) }
    | some token =>
      match get_models_for_token cfg.token_store token with
      | none =>
        { status := 403,
          body := .json (.obj [("error", .str "Forbidden: valid bearer token required")]) }
      | some token_models =>
        if token_models.any (fun m => cfg.configured_models.contains m) then route req
        else
          { status := 403,
            body := .json (.obj
              [("error", .str "Forbidden: token does not grant access to any available model")]) }
  else route req

/-- The health and version routes (lines 820-852), the two informational
endpoints claim C7 exercises; behind a failing gate no route is reached,
so the remaining table is irrelevant there. -/
def route_health_version (req : HttpRequest) : Response :=
  if (req.method = "GET" || req.method = "HEAD") && req.path = "/" then
    { status := 200,
      body := if req.method = "GET" then .text "Ollama is running" else .empty }
  else if req.method = "GET" && req.path = "/api/version" then
    { status := 200, body := .json (.obj [("version", .str "0.6.2")]) }
  else { status := 404, body := .json (.obj [("error", .str "Not found")]) }

end Server

/-! ## Fair-batching request scheduler (`src/request_scheduler.js`) -/

namespace Sched

/-- The fields of a `PendingRequest` that drive scheduling (the response
sink, completion signal and heartbeat handle carry no scheduling
decisions); `id` identifies the work closure. -/
structure PendingReq where
  id : Nat
  model_name : String
  queued_at : Nat
deriving Repr

/-- A per-model tally entry: model, request count, earliest `queued_at`. -/
structure Candidate where
  model_name : String
  count : Nat
  earliest_at : Nat

/-- One step of the counting pass of `_pick_next_model` (lines 160-170):
bump the model's count and keep its earliest timestamp, preserving
first-appearance order as a JavaScript `Map` does. -/
def tally_insert (acc : List Candidate) (r : PendingReq) : List Candidate :=
  if acc.any (fun e => e.model_name = r.model_name) then
    acc.map (fun e =>
      if e.model_name = r.model_name then
        { e with count := e.count + 1,
                 earliest_at := if r.queued_at < e.earliest_at then r.queued_at else e.earliest_at }
      else e)
  else acc ++ [⟨r.model_name, 1, r.queued_at⟩]

/-- The per-model tallies of the queue, in first-appearance order. -/
def tally (queue : List PendingReq) : List Candidate :=
  queue.foldl tally_insert []

/-- The candidate-replacement test of `_pick_next_model` (lines 182-200):
strictly more requests, or equally many and strictly earlier. -/
def better_candidate (c : Candidate) : Option Candidate → Bool
  | none => true
  | some b => c.count > b.count || (c.count = b.count && c.earliest_at < b.earliest_at)

/-- `_pick_next_model` (lines 156-205): split per-model candidates into
loaded and unloaded, keep the best of each, and prefer the loaded one.
The final `.model_name || null` maps an empty model name to `null`. -/
def pick_next_model (is_loaded : String → Bool) (queue : List PendingReq) :
    Option String :=
  if queue.isEmpty then none
  else
    let pair := (tally queue).foldl
      (fun (best : Option Candidate × Option Candidate) c =>
        if is_loaded c.model_name then
          (if better_candidate c best.1 then (some c, best.2) else best)
        else
          (if better_candidate c best.2 then (best.1, some c) else best))
      (none, none)
    match pair.1.orElse (fun _ => pair.2) with
    | some b => if b.model_name = "" then none else some b.model_name
    | none => none

/-- `_drain_model_requests` (lines 212-224): split the queue into the
batch for `model_name` and the remaining requests, both in order. -/
def drain_model_requests (model_name : String) (queue : List PendingReq) :
    List PendingReq × List PendingReq :=
  (queue.filter (fun r => r.model_name = model_name),
   queue.filter (fun r => ¬(r.model_name = model_name)))

/-- The processor loop `_process_next` (lines 79-143) under the conditions
of the fair-batching scenario: every client stays connected (pruning is a
no-op), `ensure_loaded` always succeeds and marks its model loaded, and
work closures complete without suspending mid-batch.  `arrivals` are the
requests appended to the queue while the run's *first* `await
ensure_loaded` is suspended — the event-loop point where requests
submitted synchronously after the first one land, because `submit` calls
`_process_next`, which runs its pick synchronously before that first
`await`.  With no later arrivals the inner re-drain loop finds an empty
batch on its second pass, so one drain per outer iteration suffices.
Returns the executed (id, model) pairs in execution order. -/
def process_loop :
    Nat → List PendingReq → List String → List PendingReq →
    List (Nat × String) → List (Nat × String)
  | 0, _, _, _, order => order
  | fuel + 1, queue, loaded, arrivals, order =>
    if queue.isEmpty then order
    else
      match pick_next_model (fun m => loaded.contains m) queue with
      | none => order
      | some m =>
        let queue' := queue ++ arrivals
        let loaded' := if loaded.contains m then loaded else loaded ++ [m]
        let (batch, rest) := drain_model_requests m queue'
        process_loop fuel rest loaded' []
          (order ++ batch.map (fun r => (r.id, r.model_name)))

/-- The four requests of the fair-batching scenario: submitted in order
A, B, B, A (ids 1-4, increasing `queued_at`). -/
def reqA1 : PendingReq := ⟨1, "A", 0⟩

/-- Second submission: model B. -/
def reqB1 : PendingReq := ⟨2, "B", 1⟩

/-- Third submission: model B. -/
def reqB2 : PendingReq := ⟨3, "B", 2⟩

/-- Fourth submission: model A. -/
def reqA2 : PendingReq := ⟨4, "A", 3⟩

/-- The execution order for the scenario: A, B, B, A submitted back to
back to an empty, idle scheduler with model B loaded and model A not
loaded.  The first `submit` triggers the processor synchronously, so the
pick runs while only `reqA1` is queued; the other three submissions land
during the `ensure_loaded("A")` suspension. -/
def scenario_exec_order : List (Nat × String) :=
  process_loop 5 [reqA1] ["B"] [reqB1, reqB2, reqA2] []

end Sched

/-! ## Model lifecycle manager

`model_manager.js` — shipped as the second document concatenated into
`src/src/config.js` (after the separator at line 114; lines 115-553). -/

namespace ModelMgr

/-- A `LoadedModelEntry` (lines 131-155) restricted to the fields the
lifecycle logic reads; the generator handle, MCP manager, handler and
tool list carry no eviction decisions. -/
structure LoadedModel where
  name : String
  last_used_at : Nat
  active_contexts : Nat
deriving Repr

/-- `MAX_LOADED_MODELS` (line 125). -/
def MAX_LOADED_MODELS : Nat := 3

/-- `LoadedModelEntry.touch()` (line 153) applied through the map: set
the record's `last_used_at` to the current time. -/
def touch (name : String) (now : Nat) (loaded : List LoadedModel) :
    List LoadedModel :=
  loaded.map (fun r => if r.name = name then { r with last_used_at := now } else r)

/-- `_pick_lru_victim` (lines 357-366): iterate the loaded map in
insertion order, skip entries with active contexts, keep the strictly
oldest `last_used_at`; `null` when every record is busy. -/
def pick_lru_victim (loaded : List LoadedModel) : Option LoadedModel :=
  (loaded.filter (fun r => r.active_contexts = 0)).foldl
    (fun best r =>
      match best with
      | none => some r
      | some b => if r.last_used_at < b.last_used_at then some r else some b)
    none

/-- `_unload_model` (lines 415-434): remove the record from the map
before disposing (the disposals carry no further map state); a noop for
an absent name. -/
def unload_model (name : String) (loaded : List LoadedModel) : List LoadedModel :=
  loaded.filter (fun r => ¬(r.name = name))

/-- The `while` loop of `_evict_if_needed` (lines 313-350): evict LRU
victims while the cap deficit or the memory flag demands it and the map
is non-empty, breaking when no victim is evictable.  The VRAM
re-measurement after an eviction is external: `recheck k` is its outcome
after the (k+1)-th eviction, `false` also when the query throws.  The
memory flag can only be true when insights for the model exist, in which
case the re-check block runs, so the insights test needs no separate
parameter here.  The counter decrement is `must_evict_count--` (the
JavaScript value may go negative; natural subtraction agrees with the
`> 0` guard).  `fuel` bounds the loop by the map size — every pass that
continues evicts one entry. -/
def evict_loop (recheck : Nat → Bool) :
    Nat → Nat → Bool → Nat → List LoadedModel → List LoadedModel
  | 0, _, _, _, loaded => loaded
  | fuel + 1, must_evict_count, need_memory_eviction, k, loaded =>
    if (must_evict_count > 0 || need_memory_eviction) && loaded.length > 0 then
      match pick_lru_victim loaded with
      | none => loaded
      | some victim =>
        let loaded' := unload_model victim.name loaded
        let need' := if need_memory_eviction then recheck k else false
        evict_loop recheck fuel (must_evict_count - 1) need' (k + 1) loaded'
    else loaded

/-- `_evict_if_needed` (lines 272-351): the cap deficit is
`Math.max(0, size + 1 - MAX_LOADED_MODELS)` (natural subtraction here);
`need0` is the outcome of the initial memory check — `false` also when
no insights exist for the model or the VRAM query throws (lines
280-309). -/
def evict_if_needed (recheck : Nat → Bool) (need0 : Bool)
    (loaded : List LoadedModel) : List LoadedModel :=
  evict_loop recheck loaded.length (loaded.length + 1 - MAX_LOADED_MODELS)
    need0 0 loaded

/-- `ensure_loaded` (lines 237-265), serialized as its load lock
guarantees, so the fast path and the in-lock re-check coincide: an
already-loaded model is `touch()`-ed and kept; an unconfigured name
throws `Unknown model: <name>`; otherwise evict as needed and install
the fresh record with `last_used_at = now`, `active_contexts = 0`
(`_load_model`, lines 374-407, whose generator and MCP steps add no map
state beyond that insertion).  Returns the loaded-model map after the
call. -/
def ensure_loaded (configured : List String) (recheck : Nat → Bool)
    (need0 : Bool) (name : String) (now : Nat) (loaded : List LoadedModel) :
    Except String (List LoadedModel) :=
  if loaded.any (fun r => r.name = name) then .ok (touch name now loaded)
  else if configured.contains name then
    .ok (evict_if_needed recheck need0 loaded ++ [⟨name, now, 0⟩])
  else .error ("Unknown model: " ++ name)

end ModelMgr

/-! ## Tool-execution loops (`execute_chat`, `execute_chat_openai`)

The loops of server_core.js as pure functions.  The stateful inference
session is the oracle `prompt : Nat → String` — the model's reply to the
n-th `session.prompt` call of the run (history replays included); tool
execution is the oracle `tool_oracle` (`entry.mcp_manager.call_tool`,
`.error` = thrown).  Streaming I/O — heartbeats, chunk framing, header
writes — carries no decision logic and stays outside the embedding; the
loop-visible observables (prompt inputs, iteration count, final response,
accumulated tool calls) are all recorded. -/

namespace Loop

/-- A chat message. -/
structure Msg where
  role : String
  content : String
deriving Repr

/-- One property of a tool parameter schema. -/
structure PropDesc where
  type : Option String
  description : Option String

/-- A tool's `inputSchema`, as read by the guidance block: `required`
(absent = `[]`) and `properties`. -/
structure ToolSchema where
  required : List String
  properties : List (String × PropDesc)

/-- A tool descriptor from `entry.tools`. -/
structure ToolDesc where
  name : String
  inputSchema : Option ToolSchema

/-- The handler operations the loops invoke on `entry.handler`. -/
structure Handler where
  has_tool_calls : String → Bool
  parse_tool_calls : String → List ToolCall
  format_tool_result : Json → Json → String

/-- The qwen3 codec as a handler record. -/
def qwen3_handler : Handler :=
  ⟨Qwen3.has_tool_calls, Qwen3.parse_tool_calls, Qwen3.format_tool_result⟩

/-- One executed tool call's record `{name, result, success}`; a thrown
provider error is recorded as `result := error.message`, `success :=
false`. -/
structure ToolRes where
  name : Json
  result : Json
  success : Bool

/-- `MAX_TOOL_ITERATIONS`. -/
def MAX_TOOL_ITERATIONS : Nat := 10

/-- The loop-detection signature (lines 376-378): `JSON.stringify` of the
`{name, arguments}` projections of the parsed calls. -/
def call_signature (tool_calls : List ToolCall) : String :=
  json_stringify (.arr (tool_calls.map (fun c =>
    .obj [("name", c.name), ("arguments", c.arguments)])))

/-- `Array.prototype.join` over JS values. -/
def js_join (sep : String) (l : List Json) : String :=
  String.intercalate sep (js_join_elems l)

/-- The bailout message of the loop detector (lines 390-394). -/
def bailout_message (tool_calls : List ToolCall) : String :=
  let tool_names := js_join ", " (tool_calls.map (fun c => c.name))
  "I wasn't able to get the right information — I kept trying to call " ++ tool_names ++
  " with the same arguments without success. Could you try rephrasing your question " ++
  "or providing more specific details?"

/-- The substituted message at the iteration cap (lines 489-493). -/
def cap_message : String :=
  "I was unable to complete this request — too many tool calls were needed. " ++
  "Please try rephrasing your question or providing more specific details."

/-- Sequential execution of the parsed calls (lines 399-431): collect
`{name, result, success}` per call and append each successful call to
`tool_calls_made`. -/
def exec_calls (tool_oracle : Json → Json → Except String Json) :
    List ToolCall → List ToolRes × List ToolCall
  | [] => ([], [])
  | c :: rest =>
    match tool_oracle c.name c.arguments with
    | .ok result =>
      let (rs, made) := exec_calls tool_oracle rest
      (⟨c.name, result, true⟩ :: rs, c :: made)
    | .error msg =>
      let (rs, made) := exec_calls tool_oracle rest
      (⟨c.name, .str msg, false⟩ :: rs, made)

/-- The emptiness test on a tool result (lines 438-444): falsy, one of the
literal strings `"[]"`, `"{}"`, `"null"`, a whitespace-only string, or an
empty array. -/
def is_empty_result (r : Json) : Bool :=
  !js_truthy r ||
  (match r with
   | .str s => s = "[]" || s = "\x7b\x7d" || s = "null" || js_trim s = ""
   | .arr l => l.isEmpty
   | _ => false)

/-- `(required)` / `(optional)` marker of a guidance parameter line. -/
def param_marker (required : List String) (k : String) : String :=
  if required.contains k then " (required)" else " (optional)"

/-- One guidance line per schema property (lines 452-460). -/
def param_line (required : List String) (p : String × PropDesc) : String :=
  let type_str := match p.2.type with
    | some t => if t = "" then "" else " [" ++ t ++ "]"
    | none => ""
  let descr := match p.2.description with
    | some d => if d = "" then "no description" else d
    | none => "no description"
  "  - " ++ p.1 ++ type_str ++ param_marker required p.1 ++ ": " ++ descr

/-- The parameter-guidance block appended to an empty or failed result
(lines 462-469). -/
def guidance_block (name : Json) (success : Bool) (schema : ToolSchema) : String :=
  let param_descriptions :=
    String.intercalate "\n" (schema.properties.map (param_line schema.required))
  "\n\nThe call to " ++ js_to_string name ++ " " ++
  (if success then "returned no results" else "failed") ++
  ". Review the required parameters and try a different approach. " ++
  "Expected parameters for " ++ js_to_string name ++ ":\n" ++ param_descriptions ++
  "\n\nIf you do not have the correct values for the required parameters, " ++
  "do NOT retry with the same arguments. Instead, try a different tool " ++
  "to find the needed information, or respond to the user explaining " ++
  "what information you need."

/-- Formatting of one result (lines 434-474): the codec wrapping, plus the
guidance block when the call failed or returned an empty result and a
schema for the tool exists in `entry.tools`. -/
def format_result_part (tools : List ToolDesc) (handler : Handler) (r : ToolRes) :
    String :=
  let formatted := handler.format_tool_result r.name r.result
  if !r.success || is_empty_result r.result then
    match ((match r.name with
            | .str n => tools.find? (fun t => t.name = n)
            | _ => none) : Option ToolDesc) with
    | some t =>
      (match t.inputSchema with
       | some schema => formatted ++ guidance_block r.name r.success schema
       | none => formatted)
    | none => formatted
  else formatted

/-- Result of a loop run: the observables of `execute_chat`. -/
structure RunResult where
  final_response : String
  tool_calls_made : List ToolCall
  prompts : Nat
  inputs : List String
deriving Repr

/-- The `while` loop of `execute_chat` (lines 327-485).  `offset` is the
number of session prompts consumed by the history replay; `fuel` is
`MAX_TOOL_ITERATIONS - iteration`; `inputs` records each `current_input`
passed to `session.prompt`.  Returns the pre-substitution
`final_response` (the empty string when the `while` condition exits the
loop), the final `iteration`, the accumulated calls, and the inputs. -/
def chat_loop (handler : Handler) (tools : List ToolDesc)
    (tool_oracle : Json → Json → Except String Json) (prompt : Nat → String)
    (offset : Nat) :
    Nat → Nat → String → List String → List ToolCall → List String →
    String × Nat × List ToolCall × List String
  | 0, iteration, _, _, made, inputs => ("", iteration, made, inputs)
  | fuel + 1, iteration, current_input, sigs, made, inputs =>
    let response := prompt (offset + iteration)
    let iter' := iteration + 1
    let inputs' := inputs ++ [current_input]
    if handler.has_tool_calls response then
      let tool_calls := handler.parse_tool_calls response
      if tool_calls.isEmpty then (response, iter', made, inputs')
      else
        let sig := call_signature tool_calls
        let sigs' := sigs ++ [sig]
        let repeat_count := (sigs'.filter (fun s => s = sig)).length
        if repeat_count ≥ 3 then (bailout_message tool_calls, iter', made, inputs')
        else
          let (results, new_made) := exec_calls tool_oracle tool_calls
          let formatted :=
            String.intercalate "\n\n" (results.map (format_result_part tools handler))
          chat_loop handler tools tool_oracle prompt offset fuel iter' formatted
            sigs' (made ++ new_made) inputs'
    else (response, iter', made, inputs')

/-- `execute_chat` (lines 245-563) as a pure run: filter out system
messages, replay history user turns, check the last message's role
(throwing `Last message must be from user` otherwise), run the loop, and
apply the iteration-cap substitution. -/
def execute_chat_run (handler : Handler) (tools : List ToolDesc)
    (messages : List Msg) (prompt : Nat → String)
    (tool_oracle : Json → Json → Except String Json) :
    Except String RunResult :=
  let chat_messages := messages.filter (fun m => ¬(m.role = "system"))
  let replayed := (chat_messages.dropLast.filter (fun m => m.role = "user")).length
  match chat_messages.getLast? with
  | none => .error "Last message must be from user"
  | some last =>
    if last.role = "user" then
      let (final0, iteration, made, inputs) :=
        chat_loop handler tools tool_oracle prompt replayed
          MAX_TOOL_ITERATIONS 0 last.content [] [] []
      let final :=
        if MAX_TOOL_ITERATIONS ≤ iteration && final0 = "" then cap_message else final0
      .ok ⟨final, made, replayed + iteration, inputs⟩
    else .error "Last message must be from user"

/-- The `while` loop of `execute_chat_openai` (lines 616-663): the same
skeleton as `chat_loop` but with no signature history, no loop detection
and no guidance block — results are formatted with the codec alone.  (The
synthetic `id` fields attached to `tool_calls_made` there are impure
timestamp/random values and are not modelled; no claim reads them.) -/
def chat_loop_openai (handler : Handler)
    (tool_oracle : Json → Json → Except String Json) (prompt : Nat → String)
    (offset : Nat) :
    Nat → Nat → String → List ToolCall → List String →
    String × Nat × List ToolCall × List String
  | 0, iteration, _, made, inputs => ("", iteration, made, inputs)
  | fuel + 1, iteration, current_input, made, inputs =>
    let response := prompt (offset + iteration)
    let iter' := iteration + 1
    let inputs' := inputs ++ [current_input]
    if handler.has_tool_calls response then
      let tool_calls := handler.parse_tool_calls response
      if tool_calls.isEmpty then (response, iter', made, inputs')
      else
        let (results, new_made) := exec_calls tool_oracle tool_calls
        let formatted :=
          String.intercalate "\n\n"
            (results.map (fun r => handler.format_tool_result r.name r.result))
        chat_loop_openai handler tool_oracle prompt offset fuel iter' formatted
          (made ++ new_made) inputs'
    else (response, iter', made, inputs')

/-- `execute_chat_openai` (lines 574-745) as a pure run: the same prologue
as `execute_chat_run`; after the loop there is *no* iteration-cap
substitution (`final_response` stays `""` when the cap is hit without a
break). -/
def execute_chat_openai_run (handler : Handler) (messages : List Msg)
    (prompt : Nat → String)
    (tool_oracle : Json → Json → Except String Json) :
    Except String RunResult :=
  let chat_messages := messages.filter (fun m => ¬(m.role = "system"))
  let replayed := (chat_messages.dropLast.filter (fun m => m.role = "user")).length
  match chat_messages.getLast? with
  | none => .error "Last message must be from user"
  | some last =>
    if last.role = "user" then
      let (final0, iteration, made, inputs) :=
        chat_loop_openai handler tool_oracle prompt replayed
          MAX_TOOL_ITERATIONS 0 last.content [] []
      .ok ⟨final0, made, replayed + iteration, inputs⟩
    else .error "Last message must be from user"

end Loop

/-! ## The `/api/chat` route and its error path -/

namespace Server

/-- The `/api/chat` route body after authentication (lines 891-928)
together with the surrounding catch (lines 1040-1045): validations in
source order, then the awaited `scheduler.submit`; a rejection of that
promise — e.g. `execute_chat` throwing — reaches the catch, which sends
`500 {error}` when headers are unsent and otherwise only ends the stream
(`none` here).  `exec` abstracts the scheduled work closure: it returns
the response `execute_chat` wrote, or the thrown error's message. -/
def api_chat (configured_models : List String) (allowed : Option (List String))
    (body_model : String) (body_messages : Option (List Loop.Msg))
    (exec : List Loop.Msg → Except String Response) (headers_sent : Bool) :
    Option Response :=
  match body_messages with
  | none =>
    some { status := 400, body := .json (.obj [("error", .str "messages array required")]) }
  | some messages =>
    if (match allowed with
        | some a => !a.contains body_model
        | none => false) then
      some { status := 403,
             body := .json (.obj
               [("error", .str ("access denied to model \"" ++ body_model ++ "\""))]) }
    else if !configured_models.contains body_model then
      some { status := 404,
             body := .json (.obj
               [("error", .str ("model \"" ++ body_model ++ "\" not found"))]) }
    else
      match exec messages with
      | .ok resp => some resp
      | .error e =>
        if headers_sent then none
        else some { status := 500, body := .json (.obj [("error", .str e)]) }

/-- The non-streaming work closure for `/api/chat`: run `execute_chat` and
render its outcome; of the 200 envelope (lines 545-557) only the assistant
message is kept — the claims below read the status and the error body. -/
def chat_exec (handler : Loop.Handler) (tools : List Loop.ToolDesc)
    (prompt : Nat → String) (tool_oracle : Json → Json → Except String Json)
    (messages : List Loop.Msg) : Except String Response :=
  match Loop.execute_chat_run handler tools messages prompt tool_oracle with
  | .ok r =>
    .ok { status := 200,
          body := .json (.obj [("message", .obj
            [("role", .str "assistant"), ("content", .str r.final_response)])]) }
  | .error e => .error e

end Server

/-! ## Concrete scenario inputs -/

/-- The model reply of the loop-detection scenario (spec §8, Scenario 2):
always the same single tool call. -/
def c3_response : String :=
  "<tool_call>\x7b\"name\":\"x\",\"arguments\":\x7b\"q\":1\x7d\x7d</tool_call>"

/-- The parsed call of `c3_response`. -/
def c3_call : ToolCall := ⟨.str "x", .obj [("q", .num "1")]⟩

/-- The tool oracle of the loop-detection scenario: tool `x` always
succeeds returning `""`. -/
def empty_tool_oracle : Json → Json → Except String Json :=
  fun _ _ => .ok (.str "")

/-- The bailout text produced in the scenario. -/
def c3_bailout : String :=
  "I wasn't able to get the right information — I kept trying to call x with the same arguments without success. Could you try rephrasing your question or providing more specific details?"

/-- The formatted tool result fed back as the next prompt input in the
scenario (no guidance: the entry has no tool schemas). -/
def c3_tool_response : String :=
  "<tool_response>\n\x7b\"name\": \"x\", \"result\": \"\"\x7d\n</tool_response>"

/-- The loop-detection run: constant tool-call reply, user text "hi",
no tool schemas on the entry. -/
def c3_run : Except String Loop.RunResult :=
  Loop.execute_chat_run Loop.qwen3_handler [] [⟨"user", "hi"⟩]
    (fun _ => c3_response) empty_tool_oracle

/-- A run whose signature appears only twice: the third reply is plain
text, so the loop must end normally. -/
def c3_run_two : Except String Loop.RunResult :=
  Loop.execute_chat_run Loop.qwen3_handler [] [⟨"user", "hi"⟩]
    (fun n => if n < 2 then c3_response else "done") empty_tool_oracle

/-- An entry tool list carrying a schema for tool `x`, so that the native
loop's parameter guidance fires on empty results. -/
def c6_tools : List Loop.ToolDesc :=
  [⟨"x", some ⟨["q"], [("q", ⟨some "string", some "the query"⟩)]⟩⟩]

/-- The native-path run of the comparison scenario (same oracles as the
loop-detection run, but with the schema'd tool list). -/
def c6_native_run : Except String Loop.RunResult :=
  Loop.execute_chat_run Loop.qwen3_handler c6_tools [⟨"user", "hi"⟩]
    (fun _ => c3_response) empty_tool_oracle

/-- The OpenAI-path run on identical model replies and tool results. -/
def c6_openai_run : Except String Loop.RunResult :=
  Loop.execute_chat_openai_run Loop.qwen3_handler [⟨"user", "hi"⟩]
    (fun _ => c3_response) empty_tool_oracle

/-- The guidance-augmented prompt input the native path builds in the
comparison scenario. -/
def c6_guided_input : String :=
  c3_tool_response ++
  "\n\nThe call to x returned no results. Review the required parameters and try a different approach. Expected parameters for x:\n  - q [string] (required): the query\n\nIf you do not have the correct values for the required parameters, do NOT retry with the same arguments. Instead, try a different tool to find the needed information, or respond to the user explaining what information you need."

/-- The single tagged block whose content is a JSON array of two calls
(claim C5's input). -/
def c5_array_input : String :=
  "<tool_call>[\x7b\"name\":\"a\",\"arguments\":\x7b\x7d\x7d,\x7b\"name\":\"b\",\"arguments\":\x7b\x7d\x7d]</tool_call>"

/-- The same two calls as two tagged blocks. -/
def c5_two_blocks_input : String :=
  "<tool_call>\x7b\"name\":\"a\",\"arguments\":\x7b\x7d\x7d</tool_call><tool_call>\x7b\"name\":\"b\",\"arguments\":\x7b\x7d\x7d</tool_call>"

/-- The strict-mode configuration of the gate instances: one token
granting model `m`, which is configured. -/
def c7_cfg : Server.ServerCfg :=
  ⟨true, [("tok", ⟨"", ["m"]⟩)], ["m"]⟩

/-- A concrete provider result: a content array with one text item. -/
def c8_result : Json :=
  .obj [("content", .arr [.obj [("type", .str "text"), ("text", .str "hello")]])]

/-- A concrete manager state: provider `s1` is connected and serves tools
`t1` (succeeds with `c8_result`) and `bad` (throws `boom`); tool `t2` is
routed to the torn-down provider `s2`. -/
def c8_mgr : Mcp.McpManager :=
  { clients := [("s1", fun n _ => if n = "bad" then .error "boom" else .ok c8_result)],
    tools := [("t1", ⟨"t1"⟩), ("bad", ⟨"bad"⟩), ("t2", ⟨"t2"⟩)],
    tool_to_server := [("t1", "s1"), ("bad", "s1"), ("t2", "s2")] }

/-! ## Claims -/

/-- C1 (counterexample): in the fair-batching scenario — requests
submitted in order A, B, B, A to an empty idle scheduler with model B
loaded and model A unloaded — the work closures execute in model order
A, A, B, B, not B, B, A, A as claimed: `submit` calls `_process_next`,
which runs its pick synchronously (before the first `await`), so the pick
sees only the A request; the remaining submissions land during the
`ensure_loaded("A")` suspension and batch behind it. -/
theorem c1_counterexample :
    Sched.scenario_exec_order.map Prod.snd = ["A", "A", "B", "B"] ∧
    ¬(Sched.scenario_exec_order.map Prod.snd = ["B", "B", "A", "A"]) := by
  exact ⟨rfl, by decide⟩

/-- C1 (amended): the scenario's work closures run in the order A, A, B,
B — request ids 1 and 4 (model A), then 2 and 3 (model B).  The reason is
general: `_pick_next_model` of a single-request queue returns that
request's model, whatever is loaded, and the first `submit` to an idle
scheduler triggers exactly such a pick. -/
theorem c1_fair_batching_order :
    Sched.scenario_exec_order = [(1, "A"), (4, "A"), (2, "B"), (3, "B")]
  ∧ ∀ (is_loaded : String → Bool) (r : Sched.PendingReq),
      ¬(r.model_name = "") →
      Sched.pick_next_model is_loaded [r] = some r.model_name := by
  refine ⟨rfl, ?_⟩
  intro f r h
  cases hf : f r.model_name <;>
    simp [Sched.pick_next_model, Sched.tally, Sched.tally_insert,
          Sched.better_candidate, hf, h, Option.orElse]

/-- Witness for the C1 theorem at a concrete one-request queue. -/
theorem c1_fair_batching_order_witness :
    Sched.pick_next_model (fun _ => false) [⟨1, "A", 0⟩] = some "A" :=
  c1_fair_batching_order.2 (fun _ => false) ⟨1, "A", 0⟩ (by decide)

/-- C2: calling `ensure_loaded` for a fourth distinct configured model
while exactly three are resident, all with `active_contexts = 0` and no
memory pressure, evicts exactly the record with the oldest
`last_used_at` (here `a`): afterwards exactly three models are resident —
`b`, `c` and the fresh record for the new model. -/
theorem c2_cap_eviction (a b c : ModelMgr.LoadedModel) (d : String)
    (now : Nat) (configured : List String) (recheck : Nat → Bool)
    (hconf : configured.contains d = true)
    (ha : a.active_contexts = 0) (hb : b.active_contexts = 0)
    (hc : c.active_contexts = 0)
    (hab : a.last_used_at < b.last_used_at)
    (hac : a.last_used_at < c.last_used_at)
    (hda : ¬(a.name = d)) (hdb : ¬(b.name = d)) (hdc : ¬(c.name = d))
    (hba : ¬(b.name = a.name)) (hca : ¬(c.name = a.name)) :
    ModelMgr.ensure_loaded configured recheck false d now [a, b, c] =
      .ok [b, c, ⟨d, now, 0⟩] := by
  have hmem : d ∈ configured := by simpa using hconf
  simp [ModelMgr.ensure_loaded, hmem, hda, hdb, hdc,
        ModelMgr.evict_if_needed, ModelMgr.MAX_LOADED_MODELS,
        ModelMgr.evict_loop, ModelMgr.pick_lru_victim, ha, hb, hc,
        Nat.not_lt.mpr (Nat.le_of_lt hab), Nat.not_lt.mpr (Nat.le_of_lt hac),
        ModelMgr.unload_model, hba, hca]

/-- Witness for the C2 theorem at concrete records. -/
theorem c2_cap_eviction_witness :
    ModelMgr.ensure_loaded ["m1", "m2", "m3", "m4"] (fun _ => false) false
      "m4" 40 [⟨"m1", 10, 0⟩, ⟨"m2", 20, 0⟩, ⟨"m3", 30, 0⟩] =
      .ok [⟨"m2", 20, 0⟩, ⟨"m3", 30, 0⟩, ⟨"m4", 40, 0⟩] :=
  c2_cap_eviction ⟨"m1", 10, 0⟩ ⟨"m2", 20, 0⟩ ⟨"m3", 30, 0⟩ "m4" 40
    ["m1", "m2", "m3", "m4"] (fun _ => false) rfl rfl rfl rfl
    (by decide) (by decide) (by decide) (by decide) (by decide)
    (by decide) (by decide)

/-- C5 (counterexample): a single tag-delimited block whose content is a
JSON array of two `name`/`arguments` objects parses to *no* calls, not to
the two calls the claim states — `JSON.parse` yields an array, whose
`name` property is `undefined`, so the block is skipped. -/
theorem c5_counterexample :
    Qwen3.parse_tool_calls c5_array_input = [] ∧
    ¬(([] : List ToolCall) = [⟨.str "a", .obj []⟩, ⟨.str "b", .obj []⟩]) := by
  exact ⟨rfl, by simp⟩

/-- C5 (amended): a tagged block contributes a call only when its content
parses as a JSON object with a truthy `name`; a block whose trimmed
content parses as a JSON *array* contributes none — so the single
array-content block yields `[]`, while the same two calls as two tagged
blocks parse fully. -/
theorem c5_array_block_is_skipped :
    (∀ (content : String) (l : List Json),
        json_parse (js_trim content) = some (.arr l) →
        Qwen3.parse_block content = none)
  ∧ Qwen3.parse_tool_calls c5_array_input = []
  ∧ Qwen3.parse_tool_calls c5_two_blocks_input =
      [⟨.str "a", .obj []⟩, ⟨.str "b", .obj []⟩] := by
  refine ⟨?_, rfl, rfl⟩
  intro content l h
  simp [Qwen3.parse_block, h, js_get]

/-- Witness for the C5 theorem at a concrete array-content block. -/
theorem c5_array_block_is_skipped_witness :
    Qwen3.parse_block "[\x7b\"name\":\"a\"\x7d]" = none :=
  c5_array_block_is_skipped.1 "[\x7b\"name\":\"a\"\x7d]"
    [.obj [("name", .str "a")]] rfl

/-- C9: `extract_token` returns a token exactly when the `Authorization`
value splits on single spaces into two parts whose first is
case-insensitively `bearer`; a missing header, another scheme, a doubled
space, and extra words all yield `null`. -/
theorem c9_extract_token :
    (Server.extract_token none = none)
  ∧ (∀ a t, Server.extract_token (some a) = some t ↔
      ∃ scheme, Server.js_split_space a = [scheme, t] ∧
        Server.js_to_lower scheme = "bearer")
  ∧ Server.extract_token (some "Basic abc") = none
  ∧ Server.extract_token (some "Bearer  x") = none
  ∧ Server.extract_token (some "Bearer a b") = none
  ∧ Server.extract_token (some "bEaReR tok") = some "tok" := by
  refine ⟨rfl, ?_, by decide, by decide, by decide, by decide⟩
  intro a t
  constructor
  · intro h
    replace h :
        (if a = "" then none
         else
           match Server.js_split_space a with
           | [scheme, tok] =>
               if Server.js_to_lower scheme = "bearer" then some tok else none
           | _ => none) = some t := h
    by_cases ha : a = ""
    · rw [if_pos ha] at h; cases h
    · rw [if_neg ha] at h
      rcases hs : Server.js_split_space a with _ | ⟨x, _ | ⟨y, _ | ⟨z, rest⟩⟩⟩ <;>
        rw [hs] at h
      · cases h
      · cases h
      · by_cases hx : Server.js_to_lower x = "bearer"
        · rw [show (match [x, y] with
                    | [scheme, tok] =>
                        if Server.js_to_lower scheme = "bearer" then some tok else none
                    | _ => (none : Option String)) =
                 (if Server.js_to_lower x = "bearer" then some y else none) from rfl,
              if_pos hx] at h
          injection h with h'
          exact ⟨x, by rw [h'], hx⟩
        · rw [show (match [x, y] with
                    | [scheme, tok] =>
                        if Server.js_to_lower scheme = "bearer" then some tok else none
                    | _ => (none : Option String)) =
                 (if Server.js_to_lower x = "bearer" then some y else none) from rfl,
              if_neg hx] at h
          cases h
      · cases h
  · rintro ⟨scheme, hmatch, hl⟩
    have ha : ¬(a = "") := by
      intro h0
      subst h0
      have h1 : Server.js_split_space "" = [""] := rfl
      rw [h1] at hmatch
      simp at hmatch
    show (if a = "" then none
          else
            match Server.js_split_space a with
            | [scheme, tok] =>
                if Server.js_to_lower scheme = "bearer" then some tok else none
            | _ => none) = some t
    rw [if_neg ha, hmatch]
    show (if Server.js_to_lower scheme = "bearer" then some t else none) = some t
    rw [if_pos hl]

/-- C10: the square-bracket dialect's `parse_tool_calls` examines only the
first bracket group — when that group contains no `name(…)` shape the
result is empty, even for inputs whose later groups contain a well-formed
call, on which `has_tool_calls` is still true. -/
theorem c10_first_bracket_only :
    (∀ (output : String) (content : List Char),
        Llama3.first_bracket_group output.data = some content →
        Llama3.func_matches (content.length + 1) content = [] →
        Llama3.parse_tool_calls output = [])
  ∧ Llama3.parse_tool_calls "[text] [f(a=1)]" = []
  ∧ Llama3.has_tool_calls "[text] [f(a=1)]" = true := by
  refine ⟨?_, rfl, rfl⟩
  intro output content h1 h2
  simp [Llama3.parse_tool_calls, h1, h2]

/-- Witness for the C10 theorem at the concrete two-group input. -/
theorem c10_first_bracket_only_witness :
    Llama3.parse_tool_calls "[text] [f(a=1)]" = [] :=
  c10_first_bracket_only.1 "[text] [f(a=1)]" "text".data rfl rfl

/-- C3: in the native tool-execution loop a call-list signature seen 3
times triggers the bailout — the run with a constantly repeated tool call
stops after exactly 3 model prompts with a final content that begins with
"I wasn't able to get the right information" and contains the tool name
`x` — while a signature seen only 2 times does not: the run whose third
reply is plain text ends normally with that text. -/
theorem c3_loop_detection :
    c3_run = .ok ⟨c3_bailout, [c3_call, c3_call], 3,
      ["hi", c3_tool_response, c3_tool_response]⟩
  ∧ str_starts_with c3_bailout "I wasn't able to get the right information" = true
  ∧ str_contains_sub c3_bailout "x" = true
  ∧ c3_run_two = .ok ⟨"done", [c3_call, c3_call], 3,
      ["hi", c3_tool_response, c3_tool_response]⟩
  ∧ str_starts_with "done" "I wasn't able to get the right information" = false :=
  ⟨rfl, rfl, rfl, rfl, rfl⟩

/-- C4 (counterexample): a chat whose last message has role `assistant`
fails, but the client receives **500**, not 400 as claimed: the error
thrown by `execute_chat` rejects the awaited `submit` promise and lands in
`handle_request`'s generic catch. -/
theorem c4_counterexample :
    Server.api_chat ["m"] none "m" (some [⟨"assistant", "oops"⟩])
      (Server.chat_exec Loop.qwen3_handler [] (fun _ => "") empty_tool_oracle) false =
      some ⟨500, .json (.obj [("error", .str "Last message must be from user")])⟩
  ∧ ¬((500 : Nat) = 400) :=
  ⟨rfl, by decide⟩

/-- C4 (amended): if the last non-system message of a submitted chat
request has a role other than `user`, `execute_chat` throws
`Last message must be from user` and the client receives HTTP **500**
with that message (via the generic catch), provided response headers have
not been sent. -/
theorem c4_last_message_check_yields_500
    (configured : List String) (model : String) (msgs : List Loop.Msg)
    (handler : Loop.Handler) (tools : List Loop.ToolDesc)
    (prompt : Nat → String) (oracle : Json → Json → Except String Json)
    (hmodel : configured.contains model = true)
    (m : Loop.Msg)
    (hlast : (msgs.filter (fun x => ¬(x.role = "system"))).getLast? = some m)
    (hrole : ¬(m.role = "user")) :
    Server.api_chat configured none model (some msgs)
      (Server.chat_exec handler tools prompt oracle) false =
    some ⟨500, .json (.obj [("error", .str "Last message must be from user")])⟩ := by
  have hrun : Loop.execute_chat_run handler tools msgs prompt oracle =
      .error "Last message must be from user" := by
    simp only [Loop.execute_chat_run]
    rw [hlast]
    simp [hrole]
  have hmem : model ∈ configured := by
    simpa using hmodel
  simp [Server.api_chat, hmem, Server.chat_exec, hrun]

/-- Witness for the C4 theorem at the concrete assistant-last request. -/
theorem c4_last_message_check_yields_500_witness :
    Server.api_chat ["m"] none "m" (some [⟨"assistant", "oops"⟩])
      (Server.chat_exec Loop.qwen3_handler [] (fun _ => "x") empty_tool_oracle) false =
    some ⟨500, .json (.obj [("error", .str "Last message must be from user")])⟩ :=
  c4_last_message_check_yields_500 ["m"] "m" [⟨"assistant", "oops"⟩]
    Loop.qwen3_handler [] (fun _ => "x") empty_tool_oracle rfl
    ⟨"assistant", "oops"⟩ rfl (by decide)

set_option maxRecDepth 8192 in
/-- C6 (counterexample): on identical model replies (the same repeated
tool call) and identical tool results (`x` returns `""`), the native loop
bails out via loop detection after 3 prompts with guidance-augmented
inputs, while the OpenAI-style loop runs all 10 iterations with plain
inputs and ends with empty content — so the two paths do not share the
loop detection or the guidance augmentation the claim states. -/
theorem c6_counterexample :
    c6_native_run = .ok ⟨c3_bailout, [c3_call, c3_call], 3,
      ["hi", c6_guided_input, c6_guided_input]⟩
  ∧ c6_openai_run = .ok ⟨"", List.replicate 10 c3_call, 10,
      "hi" :: List.replicate 9 c3_tool_response⟩
  ∧ ¬(c3_bailout = "")
  ∧ ¬(c6_guided_input = c3_tool_response) :=
  ⟨rfl, rfl, by decide, by decide⟩

/-- Every iteration of the OpenAI-style loop whose reply contains
parseable tool calls recurses, so a constant tool-call reply drives the
loop through all of its fuel, leaving the pre-substitution final response
empty. -/
theorem chat_loop_openai_const (handler : Loop.Handler) (R : String)
    (oracle : Json → Json → Except String Json)
    (h1 : handler.has_tool_calls R = true)
    (h2 : (handler.parse_tool_calls R).isEmpty = false) :
    ∀ (fuel it : Nat) (input : String) (made : List ToolCall)
      (inputs : List String),
      ∃ made' inputs',
        Loop.chat_loop_openai handler oracle (fun _ => R) 0 fuel it input
          made inputs = ("", it + fuel, made', inputs') := by
  intro fuel
  induction fuel with
  | zero =>
    intro it input made inputs
    exact ⟨made, inputs, rfl⟩
  | succ n ih =>
    intro it input made inputs
    obtain ⟨m', i', hrec⟩ :=
      ih (it + 1)
        (String.intercalate "\n\n"
          ((Loop.exec_calls oracle (handler.parse_tool_calls R)).1.map
            (fun r => handler.format_tool_result r.name r.result)))
        (made ++ (Loop.exec_calls oracle (handler.parse_tool_calls R)).2)
        (inputs ++ [input])
    refine ⟨m', i', ?_⟩
    have hstep :
        Loop.chat_loop_openai handler oracle (fun _ => R) 0 (n + 1) it input
          made inputs =
        Loop.chat_loop_openai handler oracle (fun _ => R) 0 n (it + 1)
          (String.intercalate "\n\n"
            ((Loop.exec_calls oracle (handler.parse_tool_calls R)).1.map
              (fun r => handler.format_tool_result r.name r.result)))
          (made ++ (Loop.exec_calls oracle (handler.parse_tool_calls R)).2)
          (inputs ++ [input]) := by
      simp [Loop.chat_loop_openai, h1, h2]
    rw [hstep, hrec]
    have : it + 1 + n = it + (n + 1) := by omega
    rw [this]

/-- C6 (amended): the OpenAI-style execution follows the same
prompt-parse-execute-format loop but performs *no* repeated-signature
loop detection and no iteration-cap substitution: whenever the model's
replies always contain the same parseable tool calls, the OpenAI path
performs all 10 prompts and ends with empty content (where the native
path bails out after 3 with the loop-detection message, as the
counterexample shows; the native path's guidance augmentation is likewise
absent from the OpenAI inputs there). -/
theorem c6_openai_loop_runs_to_cap (handler : Loop.Handler) (R u : String)
    (oracle : Json → Json → Except String Json)
    (h1 : handler.has_tool_calls R = true)
    (h2 : (handler.parse_tool_calls R).isEmpty = false) :
    ∃ r : Loop.RunResult,
      Loop.execute_chat_openai_run handler [⟨"user", u⟩] (fun _ => R) oracle =
        .ok r ∧ r.prompts = 10 ∧ r.final_response = "" := by
  obtain ⟨m', i', h⟩ := chat_loop_openai_const handler R oracle h1 h2 10 0 u [] []
  refine ⟨⟨"", m', 10, i'⟩, ?_, rfl, rfl⟩
  simp [Loop.execute_chat_openai_run, Loop.MAX_TOOL_ITERATIONS, h]

/-- Witness for the C6 theorem at the concrete repeated-call scenario. -/
theorem c6_openai_loop_runs_to_cap_witness :
    ∃ r : Loop.RunResult,
      Loop.execute_chat_openai_run Loop.qwen3_handler [⟨"user", "hi"⟩]
        (fun _ => c3_response) empty_tool_oracle = .ok r
      ∧ r.prompts = 10 ∧ r.final_response = "" :=
  c6_openai_loop_runs_to_cap Loop.qwen3_handler c3_response "hi"
    empty_tool_oracle rfl rfl

/-- C7: with `--require-token`, every non-OPTIONS request whose bearer
token is missing or unknown is rejected 403 with the
"valid bearer token required" body; a known token granting no configured
model is rejected 403 with the "does not grant access" body; the gate
covers `GET /` and `GET /api/version`; OPTIONS requests bypass it (204);
and a valid, intersecting token passes through to the route. -/
theorem c7_strict_gate (cfg : Server.ServerCfg) (req : Server.HttpRequest)
    (route : Server.HttpRequest → Server.Response)
    (hstrict : cfg.require_token = true) :
    (¬(req.method = "OPTIONS") →
       (Server.extract_token req.authorization = none ∨
        ∃ t, Server.extract_token req.authorization = some t ∧
             Server.get_models_for_token cfg.token_store t = none) →
       Server.handle_request cfg req route =
         ⟨403, .json (.obj [("error", .str "Forbidden: valid bearer token required")])⟩)
  ∧ (¬(req.method = "OPTIONS") →
       ∀ t ms, Server.extract_token req.authorization = some t →
         Server.get_models_for_token cfg.token_store t = some ms →
         ms.any (fun mo => cfg.configured_models.contains mo) = false →
         Server.handle_request cfg req route =
           ⟨403, .json (.obj
             [("error", .str "Forbidden: token does not grant access to any available model")])⟩)
  ∧ (req.method = "OPTIONS" → Server.handle_request cfg req route = ⟨204, .empty⟩)
  ∧ Server.handle_request c7_cfg ⟨"GET", "/", none⟩ Server.route_health_version =
      ⟨403, .json (.obj [("error", .str "Forbidden: valid bearer token required")])⟩
  ∧ Server.handle_request c7_cfg ⟨"GET", "/api/version", none⟩
      Server.route_health_version =
      ⟨403, .json (.obj [("error", .str "Forbidden: valid bearer token required")])⟩
  ∧ Server.handle_request c7_cfg ⟨"GET", "/api/tags", some "Bearer unknown"⟩
      Server.route_health_version =
      ⟨403, .json (.obj [("error", .str "Forbidden: valid bearer token required")])⟩
  ∧ Server.handle_request c7_cfg ⟨"OPTIONS", "/api/chat", none⟩
      Server.route_health_version = ⟨204, .empty⟩
  ∧ Server.handle_request ⟨true, [("tok", ⟨"", ["other"]⟩)], ["m"]⟩
      ⟨"GET", "/", some "Bearer tok"⟩ Server.route_health_version =
      ⟨403, .json (.obj
        [("error", .str "Forbidden: token does not grant access to any available model")])⟩
  ∧ Server.handle_request c7_cfg ⟨"GET", "/", some "Bearer tok"⟩
      Server.route_health_version = ⟨200, .text "Ollama is running"⟩ := by
  refine ⟨?_, ?_, ?_, rfl, rfl, rfl, rfl, rfl, rfl⟩
  · intro hm h
    rcases h with h | ⟨t, h1, h2⟩
    · simp [Server.handle_request, hm, hstrict, h]
    · simp [Server.handle_request, hm, hstrict, h1, h2]
  · intro hm t ms h1 h2 h3
    unfold Server.handle_request
    rw [if_neg hm, hstrict, h1]
    simp only [h2, h3, ite_true, ite_false, eq_self_iff_true, if_true]
    simp
  · intro hm
    simp [Server.handle_request, hm]

/-- Witness for the C7 theorem at a concrete token-less POST. -/
theorem c7_strict_gate_witness :
    Server.handle_request c7_cfg ⟨"POST", "/api/chat", none⟩
      Server.route_health_version =
      ⟨403, .json (.obj [("error", .str "Forbidden: valid bearer token required")])⟩ :=
  (c7_strict_gate c7_cfg ⟨"POST", "/api/chat", none⟩ Server.route_health_version
    rfl).1 (by decide) (Or.inl rfl)

/-- C8: `call_tool` fails with `Unknown tool: <name>` when the name is not
in the tool-to-provider index, with `Server not connected: <provider>`
when the provider entry is absent, and otherwise invokes the provider;
provider errors are re-raised prefixed `Tool call failed: `; a result with
a `content` array has its `type=="text"` items' `text` fields joined with
newlines, the joined text returned when non-empty and the raw structure
otherwise; a result without `content` is returned raw. -/
theorem c8_call_tool (m : Mcp.McpManager) (name : String) (args : Json) :
    (map_get m.tool_to_server name = none →
      Mcp.call_tool m name args = .error ("Unknown tool: " ++ name))
  ∧ (∀ srv, map_get m.tool_to_server name = some srv →
      map_get m.clients srv = none →
      Mcp.call_tool m name args = .error ("Server not connected: " ++ srv))
  ∧ (∀ srv client tool msg,
      map_get m.tool_to_server name = some srv →
      map_get m.clients srv = some client →
      map_get m.tools name = some tool →
      client tool.name args = .error msg →
      Mcp.call_tool m name args = .error ("Tool call failed: " ++ msg))
  ∧ (∀ srv client tool r cs,
      map_get m.tool_to_server name = some srv →
      map_get m.clients srv = some client →
      map_get m.tools name = some tool →
      client tool.name args = .ok r →
      js_get r "content" = some (.arr cs) →
      Mcp.call_tool m name args =
        (if Mcp.join_text_content cs ≠ "" then .ok (.str (Mcp.join_text_content cs))
         else .ok r))
  ∧ (∀ srv client tool r,
      map_get m.tool_to_server name = some srv →
      map_get m.clients srv = some client →
      map_get m.tools name = some tool →
      client tool.name args = .ok r →
      js_get r "content" = none →
      Mcp.call_tool m name args = .ok r) := by
  refine ⟨?_, ?_, ?_, ?_, ?_⟩
  · intro h; simp [Mcp.call_tool, h]
  · intro srv h1 h2; simp [Mcp.call_tool, h1, h2]
  · intro srv client tool msg h1 h2 h3 h4
    simp [Mcp.call_tool, h1, h2, h3, h4]
  · intro srv client tool r cs h1 h2 h3 h4 h5
    simp [Mcp.call_tool, h1, h2, h3, h4, h5]
  · intro srv client tool r h1 h2 h3 h4 h5
    simp [Mcp.call_tool, h1, h2, h3, h4, h5]


/-- Witness for the C8 theorem: the four outcomes at the concrete manager
state. -/
theorem c8_call_tool_witness :
    Mcp.call_tool c8_mgr "nope" .null = .error "Unknown tool: nope"
  ∧ Mcp.call_tool c8_mgr "t2" .null = .error "Server not connected: s2"
  ∧ Mcp.call_tool c8_mgr "bad" .null = .error "Tool call failed: boom"
  ∧ Mcp.call_tool c8_mgr "t1" .null = .ok (.str "hello") := by
  refine ⟨(c8_call_tool c8_mgr "nope" .null).1 rfl,
          (c8_call_tool c8_mgr "t2" .null).2.1 "s2" rfl rfl,
          (c8_call_tool c8_mgr "bad" .null).2.2.1 "s1" _ ⟨"bad"⟩ "boom" rfl rfl rfl rfl,
          ?_⟩
  have h := (c8_call_tool c8_mgr "t1" .null).2.2.2.1 "s1" _ ⟨"t1"⟩ c8_result
    [.obj [("type", .str "text"), ("text", .str "hello")]] rfl rfl rfl rfl rfl
  simpa using h
